import Mathlib

/-!
# vdbfusion_ros: the VDBVolumeNode of `src/vdbfusion_ros/VDBVolume_ros.cpp`

A shallow embedding of `VDBVolumeNode` (constructor, `Integrate`, `saveVolume`).

* Floating-point numbers (`float`, `double`) are modelled as exact rationals; where the
  code narrows a double to a `float` variable, the narrowing is a function the model
  is given.
* The node is passed explicitly; every operation returns the node after the call
  together with the calls it issued to its collaborators, in program order.
* Collaborators whose code is not in `VDBVolume_ros.cpp` (the tf wrapper, the
  PointCloud2 decoder, `PreProcessCloud`, the fusion backend, the two file writers,
  the parameter server) are records of functions the node is run against.
* Logging (`ROS_INFO`), `openvdb::initialize()` and the construction of `tf_` change
  nothing the node or its collaborators see and are left out.
-/

namespace vdbfusion

/-! ## Data model -/

/-- The type `Eigen::Vector3d`. -/
structure Vector3d where
  x : ℚ
  y : ℚ
  z : ℚ
  deriving DecidableEq, Repr

/-- The type `Eigen::Vector3i`. -/
structure Vector3i where
  x : Int
  y : Int
  z : Int
  deriving DecidableEq, Repr

/-- The type `ros::Time`. -/
structure Time where
  sec : Nat
  nsec : Nat
  deriving DecidableEq, Repr

/-- The type `ros::Duration`. -/
structure Duration where
  sec : Int
  nsec : Int
  deriving DecidableEq, Repr

/-- The message `geometry_msgs::Vector3`. -/
structure Vector3 where
  x : ℚ
  y : ℚ
  z : ℚ
  deriving DecidableEq, Repr

/-- The message `geometry_msgs::Quaternion`. -/
structure Quaternion where
  x : ℚ
  y : ℚ
  z : ℚ
  w : ℚ
  deriving DecidableEq, Repr

/-- The message `geometry_msgs::Transform`. -/
structure Transform where
  translation : Vector3
  rotation : Quaternion
  deriving DecidableEq, Repr

/-- The message `geometry_msgs::TransformStamped` (header stamp and transform). -/
structure TransformStamped where
  stamp : Time
  transform : Transform
  deriving DecidableEq, Repr

/-- A default-constructed `geometry_msgs::TransformStamped`: every number is zero. -/
def TransformStamped.init : TransformStamped :=
  { stamp := ⟨0, 0⟩, transform := { translation := ⟨0, 0, 0⟩, rotation := ⟨0, 0, 0, 0⟩ } }

/-- The message `sensor_msgs::PointCloud2`: the header stamp and the undecoded payload. -/
structure PointCloud2 (Payload : Type) where
  stamp : Time
  payload : Payload

/-- The members of `VDBVolumeNode` that `Integrate` and `saveVolume` read or write. -/
structure VDBVolumeNode (Vol : Type) where
  vdb_volume_ : Vol
  preprocess_ : Bool
  apply_pose_ : Bool
  min_range_ : ℚ
  max_range_ : ℚ
  fill_holes_ : Bool
  min_weight_ : ℚ

/-! ## Collaborators -/

/-- The functions `Integrate` calls on the way to the backend.
`lookUpTransform` and `pcl2SensorMsgToEigen` write through a reference argument: the
model passes the value before the call and gets the value after it. -/
structure Perception (Payload : Type) where
  /-- Stands for `tf_.lookUpTransform(stamp, block_time, transform)`. -/
  lookUpTransform : Time → Duration → TransformStamped → Bool × TransformStamped
  /-- Stands for `tf2::doTransform(in, out, transform)`. -/
  doTransform : PointCloud2 Payload → TransformStamped → PointCloud2 Payload
  /-- Stands for `typeconvert::pcl2SensorMsgToEigen(msg, scan)`. -/
  pcl2SensorMsgToEigen : PointCloud2 Payload → List Vector3d → List Vector3d
  /-- Stands for `PreProcessCloud(scan, min_range, max_range)`. -/
  PreProcessCloud : List Vector3d → ℚ → ℚ → List Vector3d

/-- The fusion backend `vdbfusion::VDBVolume`. -/
structure Backend (Vol Grid : Type) where
  /-- Stands for the constructor `VDBVolume(voxel_size, sdf_trunc, space_carving)`. -/
  create : ℚ → ℚ → Bool → Vol
  /-- Stands for `VDBVolume::Integrate(points, origin, weighting_function)`. -/
  Integrate : Vol → List Vector3d → Vector3d → (ℚ → ℚ) → Vol
  /-- Reads the public member `tsdf_`. -/
  tsdf_ : Vol → Grid
  /-- Stands for `VDBVolume::ExtractTriangleMesh(fill_holes, min_weight)`, a const member. -/
  ExtractTriangleMesh : Vol → Bool → ℚ → List Vector3d × List Vector3i

/-- One call of `vdb_volume_.Integrate`. -/
structure IntegrateCall where
  points : List Vector3d
  origin : Vector3d
  weighting_function : ℚ → ℚ

/-! ## Integrate -/

/-- The method `VDBVolumeNode::Integrate(const sensor_msgs::PointCloud2& pcl2)`: the node
after the call and the backend calls made. -/
def VDBVolumeNode.Integrate {Payload Vol Grid : Type} (env : Perception Payload)
    (be : Backend Vol Grid) (node : VDBVolumeNode Vol) (pcl2 : PointCloud2 Payload) :
    VDBVolumeNode Vol × List IntegrateCall :=
  let scan : List Vector3d := []
  let transform : TransformStamped := TransformStamped.init
  let block_time : Duration := ⟨0, 1000⟩
  match env.lookUpTransform pcl2.stamp block_time transform with
  | (true, transform) =>
    let origin : Vector3d :=
      ⟨transform.transform.translation.x, transform.transform.translation.y,
        transform.transform.translation.z⟩
    let scan :=
      if node.apply_pose_ then
        let pcl2_transformed := env.doTransform pcl2 transform
        env.pcl2SensorMsgToEigen pcl2_transformed scan
      else
        env.pcl2SensorMsgToEigen pcl2 scan
    let scan :=
      if node.preprocess_ then env.PreProcessCloud scan node.min_range_ node.max_range_
      else scan
    let w : ℚ → ℚ := fun _ => 1
    ({ node with vdb_volume_ := be.Integrate node.vdb_volume_ scan origin w },
      [{ points := scan, origin := origin, weighting_function := w }])
  | (false, _) => (node, [])

/-! ## saveVolume -/

/-- A dynamic Eigen matrix (`Eigen::MatrixXd`, `Eigen::MatrixXi`): its dimensions and its
rows. -/
structure MatrixX (α : Type) where
  rows : Nat
  cols : Nat
  data : List (List α)
  deriving DecidableEq, Repr

/-- The constructor `Eigen::Matrix(rows, cols)`; the coefficients are not initialised, `indet`
stands for what the memory holds. -/
def MatrixX.create {α : Type} (rows cols : Nat) (indet : α) : MatrixX α :=
  { rows := rows, cols := cols, data := List.replicate rows (List.replicate cols indet) }

/-- The assignment `M.row(i) = r`. -/
def MatrixX.setRow {α : Type} (M : MatrixX α) (i : Nat) (r : List α) : MatrixX α :=
  { M with data := M.data.set i r }

/-- The expression `Eigen::VectorXd::Map(&v[0], v.size())` for a `Vector3d`. -/
def Vector3d.Map (v : Vector3d) : List ℚ := [v.x, v.y, v.z]

/-- The expression `Eigen::VectorXi::Map(&t[0], t.size())` for a `Vector3i`. -/
def Vector3i.Map (t : Vector3i) : List Int := [t.x, t.y, t.z]

/-- The loop `for (size_t i = 0; i < vertices.size(); i++) V.row(i) = Map(vertices[i])`. -/
def fillV (vertices : List Vector3d) (V : MatrixX ℚ) : MatrixX ℚ :=
  vertices.enum.foldl (fun V iv => V.setRow iv.1 iv.2.Map) V

/-- The loop `for (size_t i = 0; i < triangles.size(); i++) F.row(i) = Map(triangles[i])`. -/
def fillF (triangles : List Vector3i) (F : MatrixX Int) : MatrixX Int :=
  triangles.enum.foldl (fun F it => F.setRow it.1 it.2.Map) F

/-- The enum `igl::FileEncoding`. -/
inductive FileEncoding where
  | Ascii
  | Binary
  deriving DecidableEq, Repr

/-- The two file writers. `gridFileWrite` stands for
`openvdb::io::File(filename).write(grids)`, which returns nothing and throws on an I/O
error (`Except.error`); `write_triangle_mesh` stands for `igl::write_triangle_mesh`, which
returns whether the mesh was written. -/
structure Writers (Grid : Type) where
  gridFileWrite : String → List Grid → Except String Unit
  write_triangle_mesh : String → MatrixX ℚ → MatrixX Int → FileEncoding → Bool

/-- A call to one of the two writers. -/
inductive WriteCall (Grid : Type) where
  | grid (filename : String) (grids : List Grid)
  | mesh (filename : String) (V : MatrixX ℚ) (F : MatrixX Int) (encoding : FileEncoding)
  deriving DecidableEq, Repr

/-- The file a writer call names. -/
def WriteCall.filename {Grid : Type} : WriteCall Grid → String
  | .grid f _ => f
  | .mesh f _ _ _ => f

/-- What a call of `saveVolume` leaves behind: the node, what the caller gets (`Except.ok b`
when `saveVolume` returns `b`, `Except.error` when an exception leaves it), and the writer
calls made, in order. -/
structure SaveOutcome (Vol Grid : Type) where
  node : VDBVolumeNode Vol
  result : Except String Bool
  writes : List (WriteCall Grid)

/-- The method `VDBVolumeNode::saveVolume(Request& save_path, Response& response)`.
`indetV` and `indetF` stand for the uninitialised coefficients of `V` and `F`. -/
def VDBVolumeNode.saveVolume {Vol Grid : Type} (be : Backend Vol Grid) (wr : Writers Grid)
    (indetV : ℚ) (indetF : Int) (node : VDBVolumeNode Vol) (save_path : String) :
    SaveOutcome Vol Grid :=
  let volume_name := save_path
  let gridCall : WriteCall Grid := .grid (volume_name ++ "_grid.vdb") [be.tsdf_ node.vdb_volume_]
  match wr.gridFileWrite (volume_name ++ "_grid.vdb") [be.tsdf_ node.vdb_volume_] with
  | .error e => { node := node, result := .error e, writes := [gridCall] }
  | .ok _ =>
    let (vertices, triangles) :=
      be.ExtractTriangleMesh node.vdb_volume_ node.fill_holes_ node.min_weight_
    let V := fillV vertices (MatrixX.create vertices.length 3 indetV)
    let F := fillF triangles (MatrixX.create triangles.length 3 indetF)
    let _written := wr.write_triangle_mesh (volume_name ++ "_mesh.ply") V F .Binary
    { node := node, result := .ok true,
      writes := [gridCall, .mesh (volume_name ++ "_mesh.ply") V F .Binary] }

/-! ## Construction -/

/-- A value on the ROS parameter server. -/
inductive ParamValue where
  | bool (b : Bool)
  | number (q : ℚ)
  | string (s : String)
  deriving DecidableEq, Repr

/-- The parameter server: the value stored under a key, when there is one. -/
abbrev ParamServer := String → Option ParamValue

/-- The call `nh_.getParam(key, float&)`: whether a number is stored under `key`, and the
variable after the call. The server stores numbers as doubles; a number read is narrowed
to the type of the variable, `static_cast<float>(d)`, before it is assigned. `toFloat` is
that narrowing. When nothing is read the variable is left as it was. -/
def getParamFloat (toFloat : ℚ → ℚ) (ps : ParamServer) (key : String) (var : ℚ) : Bool × ℚ :=
  match ps key with
  | some (.number d) => (true, toFloat d)
  | _ => (false, var)

/-- The call `nh_.getParam(key, bool&)`. -/
def getParamBool (ps : ParamServer) (key : String) (var : Bool) : Bool × Bool :=
  match ps key with
  | some (.bool b) => (true, b)
  | _ => (false, var)

/-- The call `nh_.getParam(key, std::string&)`. -/
def getParamString (ps : ParamServer) (key : String) (var : String) : Bool × String :=
  match ps key with
  | some (.string s) => (true, s)
  | _ => (false, var)

/-- What the variables that receive a parameter hold before `getParam` is called: the
locals of `InitVDBVolume` are declared without initialiser, the members are whatever the
class declaration leaves them. -/
structure Uninitialized where
  voxel_size : ℚ
  sdf_trunc : ℚ
  space_carving : Bool
  preprocess_ : Bool
  apply_pose_ : Bool
  min_range_ : ℚ
  max_range_ : ℚ
  fill_holes_ : Bool
  min_weight_ : ℚ

/-- A registration with the ROS master made by the constructor. -/
inductive Registration where
  | subscribe (topic : String) (queue_size : Nat)
  | advertiseService (service : String)
  deriving DecidableEq, Repr

/-- The method `VDBVolumeNode::InitVDBVolume()`. `toFloat` is the narrowing of a double to
the `float` locals `voxel_size` and `sdf_trunc`. -/
def VDBVolumeNode.InitVDBVolume {Vol Grid : Type} (be : Backend Vol Grid) (toFloat : ℚ → ℚ)
    (ps : ParamServer) (u : Uninitialized) : Vol :=
  let voxel_size := (getParamFloat toFloat ps "/voxel_size" u.voxel_size).2
  let sdf_trunc := (getParamFloat toFloat ps "/sdf_trunc" u.sdf_trunc).2
  let space_carving := (getParamBool ps "/space_carving" u.space_carving).2
  let vdb_volume := be.create voxel_size sdf_trunc space_carving
  vdb_volume

set_option linter.dupNamespace false in
/-- The constructor `VDBVolumeNode::VDBVolumeNode()`: the node built and the registrations
made, in order. `toFloat` is the narrowing of a double to `float`; `toMember` is the
conversion of a double to the type of the members `min_range_`, `max_range_` and
`min_weight_`, which `VDBVolume_ros.hpp` declares (the narrowing again when they are
`float`). -/
def VDBVolumeNode.VDBVolumeNode {Vol Grid : Type} (be : Backend Vol Grid)
    (toFloat toMember : ℚ → ℚ) (ps : ParamServer) (u : Uninitialized) :
    VDBVolumeNode Vol × List Registration :=
  let vdb_volume_ := VDBVolumeNode.InitVDBVolume be toFloat ps u
  let pcl_topic := (getParamString ps "/pcl_topic" "").2
  let preprocess_ := (getParamBool ps "/preprocess" u.preprocess_).2
  let apply_pose_ := (getParamBool ps "/apply_pose" u.apply_pose_).2
  let min_range_ := (getParamFloat toMember ps "/min_range" u.min_range_).2
  let max_range_ := (getParamFloat toMember ps "/max_range" u.max_range_).2
  let fill_holes_ := (getParamBool ps "/fill_holes" u.fill_holes_).2
  let min_weight_ := (getParamFloat toMember ps "/min_weight" u.min_weight_).2
  let queue_size := 500
  ({ vdb_volume_ := vdb_volume_, preprocess_ := preprocess_, apply_pose_ := apply_pose_,
     min_range_ := min_range_, max_range_ := max_range_, fill_holes_ := fill_holes_,
     min_weight_ := min_weight_ },
    [.subscribe pcl_topic queue_size, .advertiseService "/save_volume"])

/-! ## Integrate, step by step -/

/-- The scan `Integrate` decodes once the pose `transform` is resolved: from the transformed
cloud when `apply_pose_` is set, from the cloud as received otherwise. -/
def normalizedScan {Payload Vol : Type} (env : Perception Payload) (node : VDBVolumeNode Vol)
    (pcl2 : PointCloud2 Payload) (transform : TransformStamped) : List Vector3d :=
  if node.apply_pose_ then env.pcl2SensorMsgToEigen (env.doTransform pcl2 transform) []
  else env.pcl2SensorMsgToEigen pcl2 []

/-- The translation of a transform as an `Eigen::Vector3d`. -/
def originOf (transform : TransformStamped) : Vector3d :=
  ⟨transform.transform.translation.x, transform.transform.translation.y,
    transform.transform.translation.z⟩

/-! ## The range filter -/

/-- Componentwise difference `p - q`. -/
def Vector3d.sub (p q : Vector3d) : Vector3d := ⟨p.x - q.x, p.y - q.y, p.z - q.z⟩

/-- The square of the Euclidean norm, `v.squaredNorm()`. -/
def Vector3d.squaredNorm (v : Vector3d) : ℚ := v.x * v.x + v.y * v.y + v.z * v.z

/-- Decides `lo ≤ ‖v‖ ∧ ‖v‖ ≤ hi` for the Euclidean norm `‖v‖` without taking a square
root: `lo ≤ ‖v‖` iff `lo ≤ 0` or `lo² ≤ ‖v‖²`, and `‖v‖ ≤ hi` iff `0 ≤ hi` and
`‖v‖² ≤ hi²` (see `normWithin_iff_sqrt`). -/
def normWithin (lo hi : ℚ) (v : Vector3d) : Bool :=
  decide ((lo ≤ 0 ∨ lo * lo ≤ v.squaredNorm) ∧ (0 ≤ hi ∧ v.squaredNorm ≤ hi * hi))

/-- The Range Filter in the words of the spec, `filter(points, origin, min_range,
max_range)`: for each point `p` the distance `d = |p − origin|` is computed and `p` is
retained iff `min_range ≤ d ≤ max_range`; the retained points keep their relative order. It
takes four arguments. The `PreProcessCloud` that `Integrate` calls takes three, is defined
in `utils.h`, and stays a field of `Perception`: no theorem about `Integrate` assumes what
it computes. -/
def rangeFilter (points : List Vector3d) (origin : Vector3d) (min_range max_range : ℚ) :
    List Vector3d :=
  points.filter (fun p => normWithin min_range max_range (p.sub origin))

/-! ## Concrete collaborators, to run the node on examples -/

/-- A pose source that resolves every stamp to the translation `t` (identity rotation). -/
def poseAt (t : Vector3) : Time → Duration → TransformStamped → Bool × TransformStamped :=
  fun stamp _ _ => (true, { stamp := stamp,
                            transform := { translation := t, rotation := ⟨0, 0, 0, 1⟩ } })

/-- A pose source that never resolves a pose: the transform is left as it was. -/
def noPose : Time → Duration → TransformStamped → Bool × TransformStamped :=
  fun _ _ transform => (false, transform)

/-- Collaborators for clouds whose payload is the point list itself: the decoder appends
the payload to the scan, `doTransform` translates every point (the rotation is taken to be
the identity), and, to have some three-argument filter to run, `PreProcessCloud` is the
range filter about the point `centre` the example picks. -/
def listPerception (lookUp : Time → Duration → TransformStamped → Bool × TransformStamped)
    (centre : Vector3d) : Perception (List Vector3d) :=
  { lookUpTransform := lookUp
    doTransform := fun cloud tr =>
      { cloud with
        payload := cloud.payload.map (fun p =>
          ⟨p.x + tr.transform.translation.x, p.y + tr.transform.translation.y,
            p.z + tr.transform.translation.z⟩) }
    pcl2SensorMsgToEigen := fun cloud scan => scan ++ cloud.payload
    PreProcessCloud := fun points min_range max_range =>
      rangeFilter points centre min_range max_range }

/-- A backend whose volume is the list of the points integrated so far; the grid is that
list, the mesh has the points as vertices and one triangle per three consecutive points. -/
def logBackend : Backend (List Vector3d) (List Vector3d) :=
  { create := fun _ _ _ => []
    Integrate := fun vol points _ _ => vol ++ points
    tsdf_ := fun vol => vol
    ExtractTriangleMesh := fun vol _ _ =>
      (vol, (List.range (vol.length / 3)).map
        (fun k => ⟨(3 * k : Nat), (3 * k + 1 : Nat), (3 * k + 2 : Nat)⟩)) }

/-- Writers with fixed outcomes: the grid writer throws iff `gridOk` is false, the mesh
writer returns `meshOk`. -/
def fixedWriters (gridOk meshOk : Bool) : Writers (List Vector3d) :=
  { gridFileWrite := fun filename _ =>
      if gridOk then .ok () else .error ("could not open " ++ filename ++ " for writing")
    write_triangle_mesh := fun _ _ _ _ => meshOk }

/-- A node over `logBackend` with the configuration of the scenario of the spec
(`min_range` 0.5, `max_range` 10) and the given flags and volume. -/
def scenarioNode (vol : List Vector3d) (preprocess apply_pose : Bool) :
    VDBVolumeNode (List Vector3d) :=
  { vdb_volume_ := vol, preprocess_ := preprocess, apply_pose_ := apply_pose,
    min_range_ := 1 / 2, max_range_ := 10, fill_holes_ := true, min_weight_ := 5 }

/-- A cloud with points at distances 1/10, 2 and 15 from the zero vector. -/
def scenarioCloud : PointCloud2 (List Vector3d) :=
  { stamp := ⟨7, 0⟩, payload := [⟨1 / 10, 0, 0⟩, ⟨0, 2, 0⟩, ⟨0, 0, 15⟩] }

/-- The grids handed to the grid writer by a sequence of writer calls, in order. -/
def gridsWritten {Grid : Type} : List (WriteCall Grid) → List Grid
  | [] => []
  | .grid _ grids :: rest => grids ++ gridsWritten rest
  | .mesh _ _ _ _ :: rest => gridsWritten rest

/-- A parameter server with a cloud topic and an invalid configuration: `max_range` 1 is
below `min_range` 5, `voxel_size` is negative, `sdf_trunc` and the flags are missing. -/
def invalidParams : ParamServer := fun key =>
  if key = "/pcl_topic" then some (.string "/points")
  else if key = "/min_range" then some (.number 5)
  else if key = "/max_range" then some (.number 1)
  else if key = "/voxel_size" then some (.number (-1))
  else none

/-- Some contents for the variables that no parameter overwrites. -/
def staleMemory : Uninitialized :=
  { voxel_size := 0, sdf_trunc := -3, space_carving := false, preprocess_ := true,
    apply_pose_ := false, min_range_ := 0, max_range_ := 0, fill_holes_ := false,
    min_weight_ := 0 }

/-! ## Theorems: Integrate -/

/-- Unfolding of `Integrate` on the branch where the lookup returns false. -/
theorem Integrate_eq_of_lookup_false {Payload Vol Grid : Type} (env : Perception Payload)
    (be : Backend Vol Grid) (node : VDBVolumeNode Vol) (pcl2 : PointCloud2 Payload)
    (tr : TransformStamped)
    (h : env.lookUpTransform pcl2.stamp ⟨0, 1000⟩ TransformStamped.init = (false, tr)) :
    VDBVolumeNode.Integrate env be node pcl2 = (node, []) := by
  simp only [VDBVolumeNode.Integrate]
  rw [h]

/-- Unfolding of `Integrate` on the branch where the lookup returns true. -/
theorem Integrate_eq_of_lookup_true {Payload Vol Grid : Type} (env : Perception Payload)
    (be : Backend Vol Grid) (node : VDBVolumeNode Vol) (pcl2 : PointCloud2 Payload)
    (tr : TransformStamped)
    (h : env.lookUpTransform pcl2.stamp ⟨0, 1000⟩ TransformStamped.init = (true, tr)) :
    VDBVolumeNode.Integrate env be node pcl2 =
      ({ node with
          vdb_volume_ := be.Integrate node.vdb_volume_
            (if node.preprocess_ then
              env.PreProcessCloud (normalizedScan env node pcl2 tr) node.min_range_
                node.max_range_
             else normalizedScan env node pcl2 tr)
            (originOf tr) (fun _ => 1) },
       [{ points :=
            if node.preprocess_ then
              env.PreProcessCloud (normalizedScan env node pcl2 tr) node.min_range_
                node.max_range_
            else normalizedScan env node pcl2 tr
          origin := originOf tr
          weighting_function := fun _ => 1 }]) := by
  simp only [VDBVolumeNode.Integrate]
  rw [h]
  rfl

/-- C1: when the pose lookup for the stamp of the message returns false, `Integrate` calls
the fusion backend not at all and the node, its volume included, is what it was. -/
theorem Integrate_pose_unavailable {Payload Vol Grid : Type} (env : Perception Payload)
    (be : Backend Vol Grid) (node : VDBVolumeNode Vol) (pcl2 : PointCloud2 Payload)
    (h : (env.lookUpTransform pcl2.stamp ⟨0, 1000⟩ TransformStamped.init).1 = false) :
    (VDBVolumeNode.Integrate env be node pcl2).2 = [] ∧
    (VDBVolumeNode.Integrate env be node pcl2).1 = node ∧
    (VDBVolumeNode.Integrate env be node pcl2).1.vdb_volume_ = node.vdb_volume_ := by
  rcases hl : env.lookUpTransform pcl2.stamp ⟨0, 1000⟩ TransformStamped.init with ⟨ok, tr⟩
  rw [hl] at h
  simp only at h
  subst h
  rw [Integrate_eq_of_lookup_false env be node pcl2 tr hl]
  exact ⟨rfl, rfl, rfl⟩

/-- Witness of C1: with a pose source that never resolves, a node holding two integrated
points still holds exactly them after `Integrate`, and no backend call was made. -/
theorem Integrate_pose_unavailable_witness :
    ((listPerception noPose ⟨0, 0, 0⟩).lookUpTransform scenarioCloud.stamp ⟨0, 1000⟩
        TransformStamped.init).1 = false ∧
    (VDBVolumeNode.Integrate (listPerception noPose ⟨0, 0, 0⟩) logBackend
        (scenarioNode [⟨1, 2, 3⟩, ⟨4, 5, 6⟩] true true) scenarioCloud).2 = [] ∧
    (VDBVolumeNode.Integrate (listPerception noPose ⟨0, 0, 0⟩) logBackend
        (scenarioNode [⟨1, 2, 3⟩, ⟨4, 5, 6⟩] true true) scenarioCloud).1 =
      scenarioNode [⟨1, 2, 3⟩, ⟨4, 5, 6⟩] true true ∧
    (VDBVolumeNode.Integrate (listPerception noPose ⟨0, 0, 0⟩) logBackend
        (scenarioNode [⟨1, 2, 3⟩, ⟨4, 5, 6⟩] true true) scenarioCloud).1.vdb_volume_ =
      [⟨1, 2, 3⟩, ⟨4, 5, 6⟩] :=
  ⟨rfl, Integrate_pose_unavailable (listPerception noPose ⟨0, 0, 0⟩) logBackend
    (scenarioNode [⟨1, 2, 3⟩, ⟨4, 5, 6⟩] true true) scenarioCloud rfl⟩

/-- C6: the weighting function of every backend call `Integrate` makes is the constant
function 1: it returns 1 at every argument, whatever the cloud, the pose and the flags. -/
theorem Integrate_weighting_function_const {Payload Vol Grid : Type}
    (env : Perception Payload) (be : Backend Vol Grid) (node : VDBVolumeNode Vol)
    (pcl2 : PointCloud2 Payload) (c : IntegrateCall)
    (hc : c ∈ (VDBVolumeNode.Integrate env be node pcl2).2) (x : ℚ) :
    c.weighting_function x = 1 := by
  rcases hl : env.lookUpTransform pcl2.stamp ⟨0, 1000⟩ TransformStamped.init with ⟨ok, tr⟩
  cases ok with
  | false =>
    rw [Integrate_eq_of_lookup_false env be node pcl2 tr hl] at hc
    simp at hc
  | true =>
    rw [Integrate_eq_of_lookup_true env be node pcl2 tr hl] at hc
    simp only [List.mem_singleton] at hc
    subst hc
    rfl

/-- Witness of C6: the call made for the scenario cloud, pose resolved at (3, 4, 0) and
both flags set, weighs the distance 7/2 with 1. -/
theorem Integrate_weighting_function_const_witness :
    (⟨[⟨31 / 10, 4, 0⟩, ⟨3, 6, 0⟩], ⟨3, 4, 0⟩, fun _ => 1⟩ : IntegrateCall) ∈
      (VDBVolumeNode.Integrate (listPerception (poseAt ⟨3, 4, 0⟩) ⟨0, 0, 0⟩) logBackend
        (scenarioNode [] true true) scenarioCloud).2 ∧
    (⟨[⟨31 / 10, 4, 0⟩, ⟨3, 6, 0⟩], ⟨3, 4, 0⟩, fun _ => 1⟩ :
      IntegrateCall).weighting_function (7 / 2) = 1 :=
  have hmem : (⟨[⟨31 / 10, 4, 0⟩, ⟨3, 6, 0⟩], ⟨3, 4, 0⟩, fun _ => 1⟩ : IntegrateCall) ∈
      (VDBVolumeNode.Integrate (listPerception (poseAt ⟨3, 4, 0⟩) ⟨0, 0, 0⟩) logBackend
        (scenarioNode [] true true) scenarioCloud).2 := by
    rw [Integrate_eq_of_lookup_true _ _ _ _ _ rfl]
    simp only [List.mem_singleton]
    congr 1
    norm_num [scenarioNode, scenarioCloud, listPerception, normalizedScan, rangeFilter,
      normWithin, Vector3d.sub, Vector3d.squaredNorm, List.filter]
  ⟨hmem, Integrate_weighting_function_const _ _ _ _ _ hmem (7 / 2)⟩

/-- C10: when the pose lookup succeeds, `Integrate` calls the backend exactly once, whatever
`apply_pose_` and `preprocess_` are; the origin of that call is the translation (x, y, z)
of the resolved transform, a value in which neither the flags nor the cloud occur, and the
volume after `Integrate` is what that one call returns. -/
theorem Integrate_calls_once_with_translation {Payload Vol Grid : Type}
    (env : Perception Payload) (be : Backend Vol Grid) (node : VDBVolumeNode Vol)
    (pcl2 : PointCloud2 Payload) (tr : TransformStamped)
    (h : env.lookUpTransform pcl2.stamp ⟨0, 1000⟩ TransformStamped.init = (true, tr)) :
    (VDBVolumeNode.Integrate env be node pcl2).2.length = 1 ∧
    (VDBVolumeNode.Integrate env be node pcl2).2.map IntegrateCall.origin =
      [⟨tr.transform.translation.x, tr.transform.translation.y,
        tr.transform.translation.z⟩] ∧
    ∃ c, (VDBVolumeNode.Integrate env be node pcl2).2 = [c] ∧
      (VDBVolumeNode.Integrate env be node pcl2).1.vdb_volume_ =
        be.Integrate node.vdb_volume_ c.points c.origin c.weighting_function := by
  rw [Integrate_eq_of_lookup_true env be node pcl2 tr h]
  exact ⟨rfl, rfl, _, rfl, rfl⟩

/-- Witness of C10: with the pose resolved at (3, 4, 0), no pose application and no
preprocessing, one call is made and its origin is (3, 4, 0). -/
theorem Integrate_calls_once_with_translation_witness :
    (VDBVolumeNode.Integrate (listPerception (poseAt ⟨3, 4, 0⟩) ⟨0, 0, 0⟩) logBackend
        (scenarioNode [] false false) scenarioCloud).2.length = 1 ∧
    (VDBVolumeNode.Integrate (listPerception (poseAt ⟨3, 4, 0⟩) ⟨0, 0, 0⟩) logBackend
        (scenarioNode [] false false) scenarioCloud).2.map IntegrateCall.origin =
      [⟨3, 4, 0⟩] :=
  ⟨(Integrate_calls_once_with_translation (listPerception (poseAt ⟨3, 4, 0⟩) ⟨0, 0, 0⟩) logBackend
      (scenarioNode [] false false) scenarioCloud
      ⟨scenarioCloud.stamp, ⟨⟨3, 4, 0⟩, ⟨0, 0, 0, 1⟩⟩⟩ rfl).1,
   (Integrate_calls_once_with_translation (listPerception (poseAt ⟨3, 4, 0⟩) ⟨0, 0, 0⟩) logBackend
      (scenarioNode [] false false) scenarioCloud
      ⟨scenarioCloud.stamp, ⟨⟨3, 4, 0⟩, ⟨0, 0, 0, 1⟩⟩⟩ rfl).2.1⟩

/-- C9: when the pose is resolved and both `apply_pose_` and `preprocess_` are false, the
points of the one backend call are the sequence the decoder yields for the message as
received, starting from the empty scan: neither `doTransform` nor `PreProcessCloud` has
touched them. -/
theorem Integrate_raw_scan_passthrough {Payload Vol Grid : Type}
    (env : Perception Payload) (be : Backend Vol Grid) (node : VDBVolumeNode Vol)
    (pcl2 : PointCloud2 Payload) (tr : TransformStamped)
    (h : env.lookUpTransform pcl2.stamp ⟨0, 1000⟩ TransformStamped.init = (true, tr))
    (ha : node.apply_pose_ = false) (hp : node.preprocess_ = false) :
    (VDBVolumeNode.Integrate env be node pcl2).2.map IntegrateCall.points =
      [env.pcl2SensorMsgToEigen pcl2 []] := by
  rw [Integrate_eq_of_lookup_true env be node pcl2 tr h]
  simp [normalizedScan, ha, hp]

/-- Witness of C9: the scenario cloud reaches the backend point for point, the one at
distance 15 included, although the pose is at (3, 4, 0). -/
theorem Integrate_raw_scan_passthrough_witness :
    (VDBVolumeNode.Integrate (listPerception (poseAt ⟨3, 4, 0⟩) ⟨0, 0, 0⟩) logBackend
        (scenarioNode [] false false) scenarioCloud).2.map IntegrateCall.points =
      [[⟨1 / 10, 0, 0⟩, ⟨0, 2, 0⟩, ⟨0, 0, 15⟩]] :=
  Integrate_raw_scan_passthrough (listPerception (poseAt ⟨3, 4, 0⟩) ⟨0, 0, 0⟩) logBackend
    (scenarioNode [] false false) scenarioCloud
    ⟨scenarioCloud.stamp, ⟨⟨3, 4, 0⟩, ⟨0, 0, 0, 1⟩⟩⟩ rfl rfl rfl

/-! ## Theorems: the range filter -/

/-- The squared norm is not negative. -/
theorem squaredNorm_nonneg (v : Vector3d) : 0 ≤ v.squaredNorm := by
  unfold Vector3d.squaredNorm
  nlinarith [mul_self_nonneg v.x, mul_self_nonneg v.y, mul_self_nonneg v.z]

/-- The test `normWithin` decides what its name says: `lo ≤ ‖v‖ ≤ hi` for the Euclidean
norm `‖v‖ = √(x² + y² + z²)`, both bounds included. -/
theorem normWithin_iff_sqrt (lo hi : ℚ) (v : Vector3d) :
    normWithin lo hi v = true ↔
      (lo : ℝ) ≤ Real.sqrt (v.squaredNorm : ℝ) ∧ Real.sqrt (v.squaredNorm : ℝ) ≤ (hi : ℝ) := by
  have hs : (0 : ℝ) ≤ (v.squaredNorm : ℝ) := by exact_mod_cast squaredNorm_nonneg v
  have hlo : (lo ≤ 0 ∨ lo * lo ≤ v.squaredNorm) ↔ (lo : ℝ) ≤ Real.sqrt (v.squaredNorm : ℝ) := by
    rcases le_or_lt lo 0 with h0 | h0
    · have h0r : (lo : ℝ) ≤ 0 := by exact_mod_cast h0
      exact ⟨fun _ => h0r.trans (Real.sqrt_nonneg _), fun _ => Or.inl h0⟩
    · have h0r : (0 : ℝ) < (lo : ℝ) := by exact_mod_cast h0
      rw [Real.le_sqrt' h0r]
      constructor
      · rintro (h | h)
        · exact absurd h (not_le.mpr h0)
        · have : ((lo * lo : ℚ) : ℝ) ≤ (v.squaredNorm : ℝ) := by exact_mod_cast h
          rw [pow_two]
          exact_mod_cast this
      · intro h
        right
        rw [pow_two] at h
        exact_mod_cast h
  have hhi : (0 ≤ hi ∧ v.squaredNorm ≤ hi * hi) ↔ Real.sqrt (v.squaredNorm : ℝ) ≤ (hi : ℝ) := by
    rw [Real.sqrt_le_iff, pow_two]
    constructor
    · rintro ⟨h1, h2⟩
      exact ⟨by exact_mod_cast h1, by exact_mod_cast h2⟩
    · rintro ⟨h1, h2⟩
      exact ⟨by exact_mod_cast h1, by exact_mod_cast h2⟩
  unfold normWithin
  rw [decide_eq_true_iff, hlo, hhi]

/-- Unfolding of `saveVolume` when the grid writer throws. -/
theorem saveVolume_eq_of_grid_error {Vol Grid : Type} (be : Backend Vol Grid)
    (wr : Writers Grid) (indetV : ℚ) (indetF : Int) (node : VDBVolumeNode Vol)
    (save_path : String) (e : String)
    (hg : wr.gridFileWrite (save_path ++ "_grid.vdb") [be.tsdf_ node.vdb_volume_] = .error e) :
    VDBVolumeNode.saveVolume be wr indetV indetF node save_path =
      { node := node, result := .error e,
        writes := [.grid (save_path ++ "_grid.vdb") [be.tsdf_ node.vdb_volume_]] } := by
  simp only [VDBVolumeNode.saveVolume]
  rw [hg]

/-- Unfolding of `saveVolume` when the grid writer returns. -/
theorem saveVolume_eq_of_grid_ok {Vol Grid : Type} (be : Backend Vol Grid)
    (wr : Writers Grid) (indetV : ℚ) (indetF : Int) (node : VDBVolumeNode Vol)
    (save_path : String) (u : Unit)
    (hg : wr.gridFileWrite (save_path ++ "_grid.vdb") [be.tsdf_ node.vdb_volume_] = .ok u) :
    VDBVolumeNode.saveVolume be wr indetV indetF node save_path =
      { node := node, result := .ok true,
        writes :=
          [.grid (save_path ++ "_grid.vdb") [be.tsdf_ node.vdb_volume_],
           .mesh (save_path ++ "_mesh.ply")
             (fillV (be.ExtractTriangleMesh node.vdb_volume_ node.fill_holes_
                 node.min_weight_).1
               (MatrixX.create (be.ExtractTriangleMesh node.vdb_volume_ node.fill_holes_
                 node.min_weight_).1.length 3 indetV))
             (fillF (be.ExtractTriangleMesh node.vdb_volume_ node.fill_holes_
                 node.min_weight_).2
               (MatrixX.create (be.ExtractTriangleMesh node.vdb_volume_ node.fill_holes_
                 node.min_weight_).2.length 3 indetF))
             .Binary] } := by
  simp only [VDBVolumeNode.saveVolume]
  rw [hg]

/-- C3, amended: when the grid writer does not throw, `saveVolume` makes exactly two writer
calls: first the grid writer with the file name `path ++ "_grid.vdb"` and the `tsdf_` grid,
then the mesh writer with the file name `path ++ "_mesh.ply"` and binary encoding. -/
theorem saveVolume_artifact_names {Vol Grid : Type} (be : Backend Vol Grid)
    (wr : Writers Grid) (indetV : ℚ) (indetF : Int) (node : VDBVolumeNode Vol)
    (save_path : String) (u : Unit)
    (hg : wr.gridFileWrite (save_path ++ "_grid.vdb") [be.tsdf_ node.vdb_volume_] = .ok u) :
    (VDBVolumeNode.saveVolume be wr indetV indetF node save_path).writes.length = 2 ∧
    (VDBVolumeNode.saveVolume be wr indetV indetF node save_path).writes.map
        WriteCall.filename =
      [save_path ++ "_grid.vdb", save_path ++ "_mesh.ply"] ∧
    ∃ (V : MatrixX ℚ) (F : MatrixX Int),
      (VDBVolumeNode.saveVolume be wr indetV indetF node save_path).writes =
        [.grid (save_path ++ "_grid.vdb") [be.tsdf_ node.vdb_volume_],
         .mesh (save_path ++ "_mesh.ply") V F .Binary] := by
  rw [saveVolume_eq_of_grid_ok be wr indetV indetF node save_path u hg]
  exact ⟨rfl, rfl, _, _, rfl⟩

/-- Witness of C3, amended: for the path `/tmp/run1` and writers that succeed, the two
files are `/tmp/run1_grid.vdb` and `/tmp/run1_mesh.ply`. -/
theorem saveVolume_artifact_names_witness :
    (fixedWriters true true).gridFileWrite ("/tmp/run1" ++ "_grid.vdb")
        [logBackend.tsdf_ (scenarioNode [] true true).vdb_volume_] = .ok () ∧
    (VDBVolumeNode.saveVolume logBackend (fixedWriters true true) 0 0
        (scenarioNode [] true true) "/tmp/run1").writes.length = 2 ∧
    (VDBVolumeNode.saveVolume logBackend (fixedWriters true true) 0 0
        (scenarioNode [] true true) "/tmp/run1").writes.map WriteCall.filename =
      ["/tmp/run1" ++ "_grid.vdb", "/tmp/run1" ++ "_mesh.ply"] :=
  ⟨rfl,
    (saveVolume_artifact_names logBackend (fixedWriters true true) 0 0
      (scenarioNode [] true true) "/tmp/run1" () rfl).1,
    (saveVolume_artifact_names logBackend (fixedWriters true true) 0 0
      (scenarioNode [] true true) "/tmp/run1" () rfl).2.1⟩

/-- C3 as stated fails: for the path `/tmp/run1`, with both writers succeeding, the file
names are `/tmp/run1_grid.vdb` and `/tmp/run1_mesh.ply`, not `/tmp/run1_grid` and
`/tmp/run1_mesh`; and with a grid writer that throws, the grid writer is the only one
called. -/
theorem saveVolume_artifact_names_counterexample :
    (VDBVolumeNode.saveVolume logBackend (fixedWriters true true) 0 0
        (scenarioNode [] true true) "/tmp/run1").writes.map WriteCall.filename =
      ["/tmp/run1_grid.vdb", "/tmp/run1_mesh.ply"] ∧
    (VDBVolumeNode.saveVolume logBackend (fixedWriters true true) 0 0
        (scenarioNode [] true true) "/tmp/run1").writes.map WriteCall.filename ≠
      ["/tmp/run1" ++ "_grid", "/tmp/run1" ++ "_mesh"] ∧
    (VDBVolumeNode.saveVolume logBackend (fixedWriters false true) 0 0
        (scenarioNode [] true true) "/tmp/run1").writes.map WriteCall.filename =
      ["/tmp/run1_grid.vdb"] := by
  refine ⟨by decide, by decide, by decide⟩

/-- The row loop, started at row `k` of a matrix whose rows are `A ++ B` with `A` of
length `k` and `B` as long as the list looped over, leaves `A` and overwrites `B`. -/
theorem foldl_setRow_enumFrom {α β : Type} (f : β → List α) (xs : List β) :
    ∀ (k : Nat) (M : MatrixX α) (A B : List (List α)),
      M.data = A ++ B → A.length = k → B.length = xs.length →
      (xs.enumFrom k).foldl (fun M ib => M.setRow ib.1 (f ib.2)) M =
        { M with data := A ++ xs.map f } := by
  induction xs with
  | nil =>
    intro k M A B hM _ hB
    have hBnil : B = [] := List.length_eq_zero.mp hB
    subst hBnil
    cases M
    simp only [List.append_nil] at hM
    simp [hM]
  | cons x xs ih =>
    intro k M A B hM hA hB
    cases B with
    | nil => simp at hB
    | cons b B =>
      simp only [List.enumFrom_cons, List.foldl_cons]
      have hset : (M.setRow k (f x)).data = (A ++ [f x]) ++ B := by
        simp only [MatrixX.setRow, hM]
        rw [List.set_append]
        simp [hA]
      have hlen : B.length = xs.length := by simpa using hB
      rw [ih (k + 1) (M.setRow k (f x)) (A ++ [f x]) B hset (by simp [hA]) hlen]
      simp [MatrixX.setRow]

/-- After the vertex loop the rows of `V` are the vertices, in order. -/
theorem fillV_create (vertices : List Vector3d) (indet : ℚ) :
    fillV vertices (MatrixX.create vertices.length 3 indet) =
      { rows := vertices.length, cols := 3, data := vertices.map Vector3d.Map } := by
  unfold fillV List.enum
  rw [foldl_setRow_enumFrom Vector3d.Map vertices 0 _ []
    (List.replicate vertices.length (List.replicate 3 indet)) rfl rfl (by simp)]
  simp [MatrixX.create]

/-- After the triangle loop the rows of `F` are the triangles, in order. -/
theorem fillF_create (triangles : List Vector3i) (indet : Int) :
    fillF triangles (MatrixX.create triangles.length 3 indet) =
      { rows := triangles.length, cols := 3, data := triangles.map Vector3i.Map } := by
  unfold fillF List.enum
  rw [foldl_setRow_enumFrom Vector3i.Map triangles 0 _ []
    (List.replicate triangles.length (List.replicate 3 indet)) rfl rfl (by simp)]
  simp [MatrixX.create]

/-- C7: when the grid writer has returned, so that `ExtractTriangleMesh` is called,
`saveVolume` hands the mesh writer, in its one call, matrices `V` and `F` that are the
lists `ExtractTriangleMesh` returned, row for row. `V` has as many rows as there are
vertices and 3 columns, and its row `i` is the three coordinates of vertex `i`; `F` has as
many rows as there are triangles and 3 columns, and its row `i` is the three indices of
triangle `i`. -/
theorem saveVolume_mesh_matrices {Vol Grid : Type} (be : Backend Vol Grid)
    (wr : Writers Grid) (indetV : ℚ) (indetF : Int) (node : VDBVolumeNode Vol)
    (save_path : String) (u : Unit)
    (hg : wr.gridFileWrite (save_path ++ "_grid.vdb") [be.tsdf_ node.vdb_volume_] = .ok u) :
    ∃ (V : MatrixX ℚ) (F : MatrixX Int),
      (VDBVolumeNode.saveVolume be wr indetV indetF node save_path).writes =
        [.grid (save_path ++ "_grid.vdb") [be.tsdf_ node.vdb_volume_],
         .mesh (save_path ++ "_mesh.ply") V F .Binary] ∧
      (V.rows = (be.ExtractTriangleMesh node.vdb_volume_ node.fill_holes_
          node.min_weight_).1.length ∧
        V.cols = 3 ∧
        V.data = (be.ExtractTriangleMesh node.vdb_volume_ node.fill_holes_
          node.min_weight_).1.map (fun v => [v.x, v.y, v.z]) ∧
        V.data.length = V.rows ∧
        (∀ row ∈ V.data, row.length = V.cols) ∧
        ∀ (i : Nat) (v : Vector3d),
          (be.ExtractTriangleMesh node.vdb_volume_ node.fill_holes_
            node.min_weight_).1[i]? = some v → V.data[i]? = some [v.x, v.y, v.z]) ∧
      (F.rows = (be.ExtractTriangleMesh node.vdb_volume_ node.fill_holes_
          node.min_weight_).2.length ∧
        F.cols = 3 ∧
        F.data = (be.ExtractTriangleMesh node.vdb_volume_ node.fill_holes_
          node.min_weight_).2.map (fun t => [t.x, t.y, t.z]) ∧
        F.data.length = F.rows ∧
        (∀ row ∈ F.data, row.length = F.cols) ∧
        ∀ (i : Nat) (t : Vector3i),
          (be.ExtractTriangleMesh node.vdb_volume_ node.fill_holes_
            node.min_weight_).2[i]? = some t → F.data[i]? = some [t.x, t.y, t.z]) := by
  rw [saveVolume_eq_of_grid_ok be wr indetV indetF node save_path u hg]
  rw [fillV_create, fillF_create]
  refine ⟨_, _, rfl, ⟨rfl, rfl, rfl, by simp, ?_, ?_⟩, ⟨rfl, rfl, rfl, by simp, ?_, ?_⟩⟩
  · intro row hrow
    simp only [List.mem_map] at hrow
    obtain ⟨v, -, rfl⟩ := hrow
    rfl
  · intro i v hv
    simp [List.getElem?_map, hv, Vector3d.Map]
  · intro row hrow
    simp only [List.mem_map] at hrow
    obtain ⟨t, -, rfl⟩ := hrow
    rfl
  · intro i t ht
    simp [List.getElem?_map, ht, Vector3i.Map]

/-- Witness of C7: with writers that succeed, a volume of three points gives one mesh call,
whose `V` is the 3 by 3 matrix of the points and whose `F` is the 1 by 3 matrix of the
triangle (0, 1, 2). -/
theorem saveVolume_mesh_matrices_witness :
    (fixedWriters true true).gridFileWrite ("/tmp/run1" ++ "_grid.vdb")
        [logBackend.tsdf_
          (scenarioNode [⟨0, 0, 0⟩, ⟨1, 0, 0⟩, ⟨0, 1, 0⟩] true true).vdb_volume_] = .ok () ∧
    (VDBVolumeNode.saveVolume logBackend (fixedWriters true true) 0 0
        (scenarioNode [⟨0, 0, 0⟩, ⟨1, 0, 0⟩, ⟨0, 1, 0⟩] true true) "/tmp/run1").writes =
      [.grid "/tmp/run1_grid.vdb" [[⟨0, 0, 0⟩, ⟨1, 0, 0⟩, ⟨0, 1, 0⟩]],
       .mesh "/tmp/run1_mesh.ply" ⟨3, 3, [[0, 0, 0], [1, 0, 0], [0, 1, 0]]⟩
         ⟨1, 3, [[0, 1, 2]]⟩ .Binary] := by
  refine ⟨rfl, ?_⟩
  obtain ⟨V, F, hw, ⟨hVr, hVc, hVd, -⟩, ⟨hFr, hFc, hFd, -⟩⟩ :=
    saveVolume_mesh_matrices logBackend (fixedWriters true true) 0 0
      (scenarioNode [⟨0, 0, 0⟩, ⟨1, 0, 0⟩, ⟨0, 1, 0⟩] true true) "/tmp/run1" () rfl
  rw [hw]
  cases V
  cases F
  simp only at hVr hVc hVd hFr hFc hFd
  subst hVr hVc hVd hFr hFc hFd
  simp [logBackend, scenarioNode, List.range, List.range.loop]

/-- C8: `saveVolume` leaves the node, its volume included, as it was, whatever the writers
do; so of two calls in succession (any two paths, any writers) the second starts from the
same volume and hands the grid writer the same grid as the first, the `tsdf_` of that
volume. -/
theorem saveVolume_preserves_volume {Vol Grid : Type} (be : Backend Vol Grid)
    (wr₁ wr₂ : Writers Grid) (indetV₁ indetV₂ : ℚ) (indetF₁ indetF₂ : Int)
    (node : VDBVolumeNode Vol) (path₁ path₂ : String) :
    (VDBVolumeNode.saveVolume be wr₁ indetV₁ indetF₁ node path₁).node = node ∧
    (VDBVolumeNode.saveVolume be wr₁ indetV₁ indetF₁ node path₁).node.vdb_volume_ =
      node.vdb_volume_ ∧
    (VDBVolumeNode.saveVolume be wr₂ indetV₂ indetF₂
      (VDBVolumeNode.saveVolume be wr₁ indetV₁ indetF₁ node path₁).node path₂).node = node ∧
    gridsWritten (VDBVolumeNode.saveVolume be wr₁ indetV₁ indetF₁ node path₁).writes =
      [be.tsdf_ node.vdb_volume_] ∧
    gridsWritten (VDBVolumeNode.saveVolume be wr₂ indetV₂ indetF₂
      (VDBVolumeNode.saveVolume be wr₁ indetV₁ indetF₁ node path₁).node path₂).writes =
      gridsWritten (VDBVolumeNode.saveVolume be wr₁ indetV₁ indetF₁ node path₁).writes := by
  have key : ∀ (wr : Writers Grid) (iV : ℚ) (iF : Int) (path : String),
      (VDBVolumeNode.saveVolume be wr iV iF node path).node = node ∧
      gridsWritten (VDBVolumeNode.saveVolume be wr iV iF node path).writes =
        [be.tsdf_ node.vdb_volume_] := by
    intro wr iV iF path
    rcases hg : wr.gridFileWrite (path ++ "_grid.vdb") [be.tsdf_ node.vdb_volume_]
      with e | u
    · rw [saveVolume_eq_of_grid_error be wr iV iF node path e hg]
      exact ⟨rfl, rfl⟩
    · rw [saveVolume_eq_of_grid_ok be wr iV iF node path u hg]
      exact ⟨rfl, rfl⟩
  have h₁ := key wr₁ indetV₁ indetF₁ path₁
  rw [h₁.1]
  have h₂ := key wr₂ indetV₂ indetF₂ path₂
  exact ⟨rfl, rfl, h₂.1, h₁.2, by rw [h₂.2, h₁.2]⟩

/-! ## Theorems: construction -/

/-- C5, amended: construction checks no parameter. For every parameter server, complete or
not, valid or not, and whatever the numeric conversions do, the constructor makes the same
two registrations, in this order: it subscribes with queue size 500 to the topic named by
the string stored under `/pcl_topic` (the empty string of the default-constructed
`std::string` when none is stored), and it advertises `/save_volume`. No parameter other
than `/pcl_topic` enters the registrations. -/
theorem constructor_always_registers {Vol Grid : Type} (be : Backend Vol Grid)
    (toFloat toMember : ℚ → ℚ) (ps : ParamServer) (u : Uninitialized) :
    (VDBVolumeNode.VDBVolumeNode be toFloat toMember ps u).2 =
      [.subscribe (getParamString ps "/pcl_topic" "").2 500,
       .advertiseService "/save_volume"] :=
  rfl

/-- C5 as stated fails: with `max_range` 1 below `min_range` 5, a negative `voxel_size`
and no `sdf_trunc` on the server, the constructor still subscribes to `/points` and
advertises `/save_volume`, and the node it returns has the ranges of the server (as
converted), whatever the numeric conversions are. -/
theorem constructor_invalid_configuration_counterexample :
    invalidParams "/sdf_trunc" = none ∧
    invalidParams "/voxel_size" = some (.number (-1)) ∧
    invalidParams "/min_range" = some (.number 5) ∧
    invalidParams "/max_range" = some (.number 1) ∧
    ∀ toFloat toMember : ℚ → ℚ,
      (VDBVolumeNode.VDBVolumeNode logBackend toFloat toMember invalidParams
          staleMemory).1.min_range_ = toMember 5 ∧
      (VDBVolumeNode.VDBVolumeNode logBackend toFloat toMember invalidParams
          staleMemory).1.max_range_ = toMember 1 ∧
      (VDBVolumeNode.VDBVolumeNode logBackend toFloat toMember invalidParams
          staleMemory).2 =
        [.subscribe "/points" 500, .advertiseService "/save_volume"] := by
  refine ⟨by decide, by decide, by decide, by decide, ?_⟩
  intro toFloat toMember
  simp [VDBVolumeNode.VDBVolumeNode, getParamFloat, getParamString, invalidParams]

end vdbfusion
